import Mathlib

/-!
Verification development for the stream-examples repository.

The repository contains three small Node.js programs, each wiring a custom
Readable subclass (Source) into a custom Writable subclass (Sink) through
stream.pipe:

* backpressure example: 10 chunks of 25 bytes, production every 100 ms,
  consumption every 1000 ms, both high-water marks 100 bytes;
* errors example: same constants, but the Source emits an error when its
  read counter reaches 3 and the Sink emits an error on its 7th write;
* flowing example: same as the backpressure example with 20 chunks.

The programs are deterministic: the only asynchrony is two kinds of
setTimeout (production latency 100 ms, consumption latency 1000 ms), at
most one of each pending at a time.  We embed the programs as a
discrete-event state machine: a state carries the Source read counter, the
readable buffer, the writable queue plus the in-flight chunk, the pending
timer deadlines, the pipe/flowing flags and an event log; a step fires the
earliest pending timer (ties broken by registration order: the write timer
was registered 900 ms before a read timer due at the same instant).

The transition functions translate the Node stream machinery exactly as the
three programs exercise it:

* Readable.push always appends (or hands the chunk straight to the sink
  when flowing with an empty buffer) and returns false once the buffered
  length reaches the high-water mark; a false return stops further _read
  calls until the buffer is drained (lines 79-100 of backpressure.js and
  the comment at lines 23-26);
* Writable.write starts _write immediately when idle, otherwise queues;
  its result compares the total unacknowledged length - queued bytes plus
  the in-flight chunk - against the high-water mark, and a false result
  makes the pipe pause the source;
* the write callback dequeues the next chunk, and emits drain when the
  queue empties with needDrain set; while piped, drain resumes the source,
  which flushes its buffer into the sink in FIFO order;
* push(null) marks end-of-data, but the end event is only emitted once the
  readable buffer is empty during a flowing read (line 30 comment);
  on end the pipe calls sink.end, and finish fires once the sink is idle;
* emitting error on the Sink triggers the pipe's error listener, which
  unpipes immediately and emits the unpipe event on the Sink (the comment
  at lines 174-179 of the errors example); emitting error on the Source
  has no listener in the pipe machinery and changes nothing;
* the unpipe event of a Readable fires only when a stream piped INTO it
  unlinks; nothing ever pipes into the Source, so its unpipe listener
  (errors example) can never fire.  The event is still modelled so that
  its absence is a statement about the program, not about the model.
-/

set_option maxRecDepth 20000
set_option maxHeartbeats 2000000

namespace StreamExamples

/-- lib/backpressure.js line 6: number of _read calls before pushing null. -/
def READ_COUNT : Nat := 10

/-- lib/backpressure.js line 7: production latency in ms. -/
def READ_INTERVAL : Nat := 100

/-- lib/backpressure.js line 8: consumption latency in ms. -/
def WRITE_INTERVAL : Nat := 1000

/-- lib/backpressure.js line 9: source high-water mark in bytes. -/
def SOURCE_HIGH_WATER_MARK : Nat := 100

/-- lib/backpressure.js line 10: sink high-water mark in bytes. -/
def SINK_HIGH_WATER_MARK : Nat := 100

/-- lib/backpressure.js lines 12-13: every chunk is the 25-byte alphabet string. -/
def CHUNK_BYTES : Nat := 25

/-- Per-program configuration: total chunks to produce, the read count at
which the Source emits its error (errors example: 3), and the write id at
which the Sink emits its error (errors example: 7). -/
structure Config where
  readCount : Nat
  srcErrorAt : Option Nat
  sinkErrorAt : Option Nat
  deriving DecidableEq, Repr

/-- Observable events, in the order the programs log them. -/
inductive Ev where
  /-- Source._read invoked (count incremented to n). -/
  | readStart (n : Nat)
  /-- the Source emitted its test error. -/
  | srcError
  /-- Source.push(null): end-of-data reached. -/
  | pushedNull
  /-- Source.push returned false on a data chunk: reading paused. -/
  | pushFalsePaused
  /-- chunk c handed to the sink (sink.write called by the pipe). -/
  | delivered (c : Nat)
  /-- Sink._write number id started on chunk c. -/
  | writeStart (id : Nat) (c : Nat)
  /-- the Sink emitted its test error. -/
  | sinkError
  /-- the unpipe event fired on the Sink (the pipe severed the link). -/
  | sinkUnpiped
  /-- the unpipe event fired on the Source (never happens: nothing pipes into it). -/
  | sourceUnpiped
  /-- the Sink emitted drain (its queue emptied with needDrain set). -/
  | drain
  /-- the Source emitted end. -/
  | sourceEnd
  /-- the Sink emitted finish. -/
  | sinkFinish
  deriving DecidableEq, Repr

/-- Full program state.  srcMirror and sinkMirror are the bufferLength
display fields that the polling observer maintains; everything else is
stream state. -/
structure St where
  time : Nat
  /-- Source.count: how often _read has been invoked. -/
  count : Nat
  /-- deadline of the pending production setTimeout, if any. -/
  pendingRead : Option Nat
  /-- the readable buffer (chunk ids in order). -/
  srcBuf : List Nat
  /-- push(null) has happened. -/
  srcEnded : Bool
  /-- the end event has fired. -/
  endEmitted : Bool
  /-- the readable is in flowing mode. -/
  flowing : Bool
  /-- the pipe is linked. -/
  piped : Bool
  /-- the Source has emitted its test error. -/
  srcErrored : Bool
  /-- the writable queue (excluding the in-flight chunk). -/
  sinkQueue : List Nat
  /-- the chunk currently inside Sink._write, if any. -/
  inFlight : Option Nat
  /-- deadline of the pending consumption setTimeout, if any. -/
  pendingWrite : Option Nat
  /-- the writable has signalled write-false and owes a drain event. -/
  needDrain : Bool
  /-- Sink.writeId: how often _write has been invoked. -/
  writeId : Nat
  /-- the Sink has emitted its test error. -/
  sinkErrored : Bool
  /-- sink.end() has been called. -/
  sinkEnded : Bool
  /-- the finish event has fired. -/
  finished : Bool
  /-- Source.bufferLength: the observer's displayed source buffer length. -/
  srcMirror : Nat
  /-- Sink.bufferLength: the observer's displayed sink buffer length. -/
  sinkMirror : Nat
  /-- event log, most recent event first; logOf reverses it for reading. -/
  log : List Ev
  deriving DecidableEq, Repr

/-- Sink occupancy in chunks: queued chunks plus the in-flight one.  This is
what the writable state counts against its high-water mark (the in-flight
chunk is only subtracted when its callback runs). -/
def St.sinkOccupied (s : St) : Nat :=
  s.sinkQueue.length + (if s.inFlight.isSome then 1 else 0)

/-- Bytes the writable holds against its high-water mark. -/
def St.sinkLenBytes (s : St) : Nat := CHUNK_BYTES * s.sinkOccupied

/-- Bytes in the readable buffer. -/
def St.srcLenBytes (s : St) : Nat := CHUNK_BYTES * s.srcBuf.length

/-- Sink._write starts on chunk c: writeId increments, the chunk becomes
in-flight, the 1000 ms callback is scheduled.  In the errors example the
Sink emits its error when writeId reaches 7; the pipe's error listener on
the sink unpipes immediately (emitting unpipe on the Sink) and the source
stops flowing.  The started _write still runs to completion. -/
def doWriteStart (cfg : Config) (s : St) (c : Nat) : St :=
  let wid := s.writeId + 1
  let s := { s with writeId := wid, inFlight := some c,
                    pendingWrite := some (s.time + WRITE_INTERVAL),
                    log := Ev.writeStart wid c :: s.log }
  if cfg.sinkErrorAt = some wid then
    let s := { s with sinkErrored := true, log := Ev.sinkError :: s.log }
    if s.piped then
      { s with piped := false, flowing := false, log := Ev.sinkUnpiped :: s.log }
    else s
  else s

/-- Writable.write as called by the pipe: start _write when idle, queue
otherwise; the boolean result compares the resulting unacknowledged length
(queued plus in-flight) against the high-water mark, and a false result
sets needDrain. -/
def sinkWrite (cfg : Config) (s : St) (c : Nat) : St × Bool :=
  if s.inFlight.isSome then
    let s := { s with sinkQueue := s.sinkQueue ++ [c] }
    let ret := decide (s.sinkLenBytes < SINK_HIGH_WATER_MARK)
    ({ s with needDrain := s.needDrain || !ret }, ret)
  else
    let s := doWriteStart cfg s c
    let ret := decide (s.sinkLenBytes < SINK_HIGH_WATER_MARK)
    ({ s with needDrain := s.needDrain || !ret }, ret)

/-- The pipe's data handler: hand chunk c to the sink; when the write
returns false the pipe pauses the source. -/
def emitData (cfg : Config) (s : St) (c : Nat) : St :=
  let s := { s with log := Ev.delivered c :: s.log }
  let p := sinkWrite cfg s c
  if p.2 then p.1 else { p.1 with flowing := false }

/-- flow(): while the source is flowing and piped, move chunks from the
front of the readable buffer into the sink.  Fuel is the buffer length. -/
def flowAux (cfg : Config) : Nat → St → St
  | 0, s => s
  | fuel + 1, s =>
    if s.flowing && s.piped then
      match s.srcBuf with
      | [] => s
      | c :: rest => flowAux cfg fuel (emitData cfg { s with srcBuf := rest } c)
    else s

/-- finishMaybe: once sink.end() has been called and the sink is idle
(no queued and no in-flight chunk), emit finish. -/
def finishMaybe (s : St) : St :=
  if s.sinkEnded && s.inFlight.isNone && s.sinkQueue.isEmpty && !s.finished then
    { s with finished := true, log := Ev.sinkFinish :: s.log }
  else s

/-- endReadable: during a flowing read with push(null) already seen and an
empty buffer, emit end; the pipe's end listener then calls sink.end(),
which finishes immediately when the sink is already idle. -/
def checkEnd (s : St) : St :=
  if s.srcEnded && s.srcBuf.isEmpty && s.flowing && s.piped && !s.endEmitted then
    let s := { s with endEmitted := true, log := Ev.sourceEnd :: s.log }
    finishMaybe { s with sinkEnded := true }
  else s

/-- maybeReadMore: invoke _read again (incrementing count and scheduling the
100 ms production timeout) while no read is outstanding, push(null) has not
happened, and the readable buffer is below its high-water mark. -/
def scheduleRead (s : St) : St :=
  if !s.srcEnded && s.pendingRead.isNone && s.srcLenBytes < SOURCE_HIGH_WATER_MARK then
    let n := s.count + 1
    { s with count := n, pendingRead := some (s.time + READ_INTERVAL),
             log := Ev.readStart n :: s.log }
  else s

/-- Readable.push on a data chunk into the readable buffer (the non-flowing
case): the chunk is always appended; the result reports whether the
buffered length is still below the high-water mark
(lines 79-100 and the comment at lines 23-26 of backpressure.js). -/
def pushToBuffer (buf : List Nat) (c : Nat) : List Nat × Bool :=
  let buf := buf ++ [c]
  (buf, decide (CHUNK_BYTES * buf.length < SOURCE_HIGH_WATER_MARK))

/-- The production setTimeout fires: clear the pending deadline. -/
def tickRead (t : Nat) (s : St) : St :=
  { s with time := t, pendingRead := none }

/-- In the errors example the Source emits its error when count reaches the
configured value and then proceeds normally: the pipe machinery has no
listener on source errors, so nothing else changes. -/
def maybeSrcError (cfg : Config) (s : St) : St :=
  if cfg.srcErrorAt = some s.count
  then { s with srcErrored := true, log := Ev.srcError :: s.log }
  else s

/-- push(null): end-of-data; the end event fires only once the buffer is
already empty during a flowing read. -/
def pushNullStep (s : St) : St :=
  checkEnd { s with srcEnded := true, log := Ev.pushedNull :: s.log }

/-- push of data chunk number count: handed straight to the sink while
flowing with an empty buffer, buffered otherwise; a false push result
pauses reading, a true one requests the next read. -/
def pushChunkStep (cfg : Config) (s : St) : St :=
  let c := s.count
  if s.flowing && s.piped && s.srcBuf.isEmpty then
    scheduleRead (emitData cfg s c)
  else
    let p := pushToBuffer s.srcBuf c
    let s := { s with srcBuf := p.1 }
    if p.2 then scheduleRead s
    else { s with log := Ev.pushFalsePaused :: s.log }

/-- The body of Source._read's setTimeout, fired at deadline t: produce
chunk number count, or push(null) once count exceeds the configured total.
In the errors example the Source emits its error when count is 3 and then
proceeds normally (the pipe has no listener on source errors). -/
def readComplete (cfg : Config) (t : Nat) (s : St) : St :=
  let s := maybeSrcError cfg (tickRead t s)
  if s.count > cfg.readCount then pushNullStep s
  else pushChunkStep cfg s

/-- The write callback acknowledges the in-flight chunk at deadline t. -/
def ackInFlight (t : Nat) (s : St) : St :=
  { s with time := t, pendingWrite := none, inFlight := none }

/-- The pipe's drain handler: resume the source, flush its buffer into the
sink, emit end if the source is exhausted, and read more. -/
def resumeFlow (cfg : Config) (s : St) : St :=
  let s := { s with flowing := true }
  let s := flowAux cfg s.srcBuf.length s
  let s := checkEnd s
  scheduleRead s

/-- With the sink queue empty and needDrain set, the drain event fires;
while piped, the pipe's drain listener resumes the source. -/
def drainStep (cfg : Config) (s : St) : St :=
  if s.needDrain then
    let s := { s with needDrain := false, log := Ev.drain :: s.log }
    if s.piped then resumeFlow cfg s else s
  else s

/-- The body of Sink._write's setTimeout (the write callback), fired at
deadline t: the in-flight chunk is acknowledged; the next queued chunk (if
any) starts writing; with an empty queue and needDrain set, drain fires -
and, while piped, the pipe resumes the source, which flushes its buffer,
possibly emits end, and reads more; finally finish is checked. -/
def writeComplete (cfg : Config) (t : Nat) (s : St) : St :=
  let s := ackInFlight t s
  match s.sinkQueue with
  | c :: rest => doWriteStart cfg { s with sinkQueue := rest } c
  | [] => finishMaybe (drainStep cfg s)

/-- One scheduler step: fire the earliest pending timeout.  A write
callback due at the same instant as a read was registered 900 ms earlier,
so it fires first.  No pending timeout means the program has terminated. -/
def step (cfg : Config) (s : St) : Option St :=
  match s.pendingRead, s.pendingWrite with
  | none, none => none
  | some tr, none => some (readComplete cfg tr s)
  | none, some tw => some (writeComplete cfg tw s)
  | some tr, some tw =>
    if tw ≤ tr then some (writeComplete cfg tw s)
    else some (readComplete cfg tr s)

/-- State just after source.pipe(sink): the pipe resumes the source, the
empty buffer triggers the first _read, whose timeout is due at 100 ms. -/
def init : St :=
  { time := 0, count := 1, pendingRead := some READ_INTERVAL, srcBuf := [],
    srcEnded := false, endEmitted := false, flowing := true, piped := true,
    srcErrored := false, sinkQueue := [], inFlight := none, pendingWrite := none,
    needDrain := false, writeId := 0, sinkErrored := false, sinkEnded := false,
    finished := false, srcMirror := 0, sinkMirror := 0, log := [Ev.readStart 1] }

/-- Run the scheduler, collecting every state, until no timeout is pending
or fuel runs out. -/
def runAux (cfg : Config) : Nat → St → List St
  | 0, s => [s]
  | fuel + 1, s =>
    match step cfg s with
    | none => [s]
    | some s2 => s :: runAux cfg fuel s2

/-- Every state the given program reaches, in order. -/
def trace (cfg : Config) : List St := runAux cfg 120 init

/-- The terminal state of the given program. -/
def finalState (cfg : Config) : St := (trace cfg).getLastD init

/-- The event log of the whole run. -/
def logOf (cfg : Config) : List Ev := (finalState cfg).log.reverse

/-- lib/backpressure.js: 10 chunks, no errors. -/
def backpressureCfg : Config := ⟨10, none, none⟩

/-- lib/errors.js: 10 chunks, source error at read 3, sink error at write 7. -/
def errorsCfg : Config := ⟨10, some 3, some 7⟩

/-- lib/flowing.js: 20 chunks, no errors. -/
def flowingCfg : Config := ⟨20, none, none⟩

/-- A hypothetical 5-chunk run of the backpressure program (125 bytes
produced against a 100-byte sink high-water mark). -/
def shortCfg : Config := ⟨5, none, none⟩

/-- The chunks handed to the sink, in order, as recorded in a log. -/
def deliveredSeq (l : List Ev) : List Nat :=
  l.filterMap (fun e => match e with | Ev.delivered c => some c | _ => none)

/-- The chunks the sink's _write processed, in order. -/
def writeSeq (l : List Ev) : List Nat :=
  l.filterMap (fun e => match e with | Ev.writeStart _ c => some c | _ => none)

/-- Effective sink capacity in chunks: highWaterMark / chunkSize. -/
def sinkCapacityChunks : Nat := SINK_HIGH_WATER_MARK / CHUNK_BYTES

/-- Source capacity in chunks: highWaterMark / chunkSize. -/
def sourceCapacityChunks : Nat := SOURCE_HIGH_WATER_MARK / CHUNK_BYTES

/-- Sink.bufferCapacity as constructed (backpressure.js line 107 and the
errors example): one chunk is reserved for the in-flight element. -/
def sinkDisplayCapacity : Nat := (SINK_HIGH_WATER_MARK - CHUNK_BYTES) / CHUNK_BYTES

/-- Source.bufferCapacity as constructed in backpressure.js line 58:
computed from the SINK high-water mark. -/
def sourceBufferCapacityBackpressure : Nat := SINK_HIGH_WATER_MARK / CHUNK_BYTES

/-- Source.bufferCapacity as constructed in the errors example:
also computed from the SINK high-water mark. -/
def sourceBufferCapacityErrors : Nat := SINK_HIGH_WATER_MARK / CHUNK_BYTES

/-- The capacity invariant of claim C1, per state. -/
def capacityInv (s : St) : Bool :=
  decide (s.sinkOccupied ≤ sinkCapacityChunks) &&
  decide (s.srcBuf.length ≤ sourceCapacityChunks)

/-- Source.getBufferLength (backpressure.js lines 75-77). -/
def getBufferLengthSrc (s : St) : Nat := s.srcBuf.length

/-- Sink.getBufferLength (backpressure.js lines 121-123). -/
def getBufferLengthSink (s : St) : Nat := s.sinkQueue.length

/-- One observer poll tick, as in monitorBuffers of the errors example:
bufferChanged(sink) short-circuits bufferChanged(source), and each updates
only its displayed bufferLength mirror. -/
def monitorPoll (s : St) : St :=
  if getBufferLengthSink s ≠ s.sinkMirror then
    { s with sinkMirror := getBufferLengthSink s }
  else if getBufferLengthSrc s ≠ s.srcMirror then
    { s with srcMirror := getBufferLengthSrc s }
  else s

/-- The stream-machinery part of a state: everything except the observer's
display mirrors. -/
structure Core where
  time : Nat
  count : Nat
  pendingRead : Option Nat
  srcBuf : List Nat
  srcEnded : Bool
  endEmitted : Bool
  flowing : Bool
  piped : Bool
  srcErrored : Bool
  sinkQueue : List Nat
  inFlight : Option Nat
  pendingWrite : Option Nat
  needDrain : Bool
  writeId : Nat
  sinkErrored : Bool
  sinkEnded : Bool
  finished : Bool
  log : List Ev
  deriving DecidableEq, Repr

/-- Project a state to its stream-machinery part. -/
def St.core (s : St) : Core :=
  ⟨s.time, s.count, s.pendingRead, s.srcBuf, s.srcEnded, s.endEmitted,
   s.flowing, s.piped, s.srcErrored, s.sinkQueue, s.inFlight, s.pendingWrite,
   s.needDrain, s.writeId, s.sinkErrored, s.sinkEnded, s.finished, s.log⟩

/-- Overwrite the two display mirrors (the only fields an observer poll
tick ever changes). -/
def setMirrors (a b : Nat) (s : St) : St :=
  { s with srcMirror := a, sinkMirror := b }

/-- BoundedBuffer.enqueue exactly as the spec words it.
Modelled from the spec: enqueue(chunk) returns false (rejects) if
currentLength + chunk.size > capacity; true otherwise and appends -
instantiated at the source buffer (capacity SOURCE_HIGH_WATER_MARK,
chunks of CHUNK_BYTES). -/
def enqueueSpec (buf : List Nat) (c : Nat) : List Nat × Bool :=
  if CHUNK_BYTES * buf.length + CHUNK_BYTES > SOURCE_HIGH_WATER_MARK then
    (buf, false)
  else (buf ++ [c], true)

/-- The amended enqueue contract matching the code: the chunk is always
appended, and the result is false as soon as the resulting length reaches
the capacity. -/
def enqueueAmended (buf : List Nat) (c : Nat) : List Nat × Bool :=
  (buf ++ [c],
   decide (¬(CHUNK_BYTES * buf.length + CHUNK_BYTES ≥ SOURCE_HIGH_WATER_MARK)))

/-- Helper lemmas for the observer claim: every transition function of the
stream machinery commutes with overwriting the display mirrors, because
none of them reads or writes those fields. -/
lemma setMirrors_count (a b : Nat) (s : St) : (setMirrors a b s).count = s.count := rfl

lemma setMirrors_flowing (a b : Nat) (s : St) : (setMirrors a b s).flowing = s.flowing := rfl

lemma setMirrors_piped (a b : Nat) (s : St) : (setMirrors a b s).piped = s.piped := rfl

lemma setMirrors_srcBuf (a b : Nat) (s : St) : (setMirrors a b s).srcBuf = s.srcBuf := rfl

lemma setMirrors_needDrain (a b : Nat) (s : St) : (setMirrors a b s).needDrain = s.needDrain := rfl

lemma setMirrors_log (a b : Nat) (s : St) : (setMirrors a b s).log = s.log := rfl

lemma setMirrors_pendingRead (a b : Nat) (s : St) : (setMirrors a b s).pendingRead = s.pendingRead := rfl

lemma setMirrors_pendingWrite (a b : Nat) (s : St) : (setMirrors a b s).pendingWrite = s.pendingWrite := rfl

lemma setMirrors_sinkQueue (a b : Nat) (s : St) : (setMirrors a b s).sinkQueue = s.sinkQueue := rfl

lemma smUpd_srcBuf (a b : Nat) (s : St) (r : List Nat) :
    ({ setMirrors a b s with srcBuf := r } : St) = setMirrors a b { s with srcBuf := r } := rfl

lemma smUpd_sinkQueue (a b : Nat) (s : St) (r : List Nat) :
    ({ setMirrors a b s with sinkQueue := r } : St) = setMirrors a b { s with sinkQueue := r } := rfl

lemma smUpd_flowing (a b : Nat) (s : St) (v : Bool) :
    ({ setMirrors a b s with flowing := v } : St) = setMirrors a b { s with flowing := v } := rfl

lemma smUpd_drain (a b : Nat) (s : St) (v : Bool) (l : List Ev) :
    ({ setMirrors a b s with needDrain := v, log := l } : St)
      = setMirrors a b { s with needDrain := v, log := l } := rfl

lemma smUpd_srcEnded (a b : Nat) (s : St) (l : List Ev) :
    ({ setMirrors a b s with srcEnded := true, log := l } : St)
      = setMirrors a b { s with srcEnded := true, log := l } := rfl

lemma doWriteStart_setMirrors (cfg : Config) (a b c : Nat) (s : St) :
    doWriteStart cfg (setMirrors a b s) c = setMirrors a b (doWriteStart cfg s c) := by
  cases s
  dsimp [doWriteStart, setMirrors]
  split <;> (try split) <;> rfl

lemma emitData_setMirrors (cfg : Config) (a b c : Nat) (s : St) :
    emitData cfg (setMirrors a b s) c = setMirrors a b (emitData cfg s c) := by
  cases s
  dsimp [emitData, sinkWrite, doWriteStart, setMirrors, St.sinkLenBytes, St.sinkOccupied]
  repeat' split
  all_goals rfl

lemma flowAux_setMirrors (cfg : Config) (a b : Nat) :
    ∀ (n : Nat) (s : St),
      flowAux cfg n (setMirrors a b s) = setMirrors a b (flowAux cfg n s) := by
  intro n
  induction n with
  | zero => intro s; rfl
  | succ m ih =>
    intro s
    simp only [flowAux, setMirrors_flowing, setMirrors_piped, setMirrors_srcBuf]
    split
    · cases hb : s.srcBuf with
      | nil => simp [hb]
      | cons c rest =>
        simp only [hb]
        rw [← ih, ← emitData_setMirrors]
        rfl
    · rfl

lemma finishMaybe_setMirrors (a b : Nat) (s : St) :
    finishMaybe (setMirrors a b s) = setMirrors a b (finishMaybe s) := by
  cases s
  dsimp [finishMaybe, setMirrors]
  split <;> rfl

lemma checkEnd_setMirrors (a b : Nat) (s : St) :
    checkEnd (setMirrors a b s) = setMirrors a b (checkEnd s) := by
  cases s
  dsimp [checkEnd, finishMaybe, setMirrors]
  repeat' split
  all_goals rfl

lemma scheduleRead_setMirrors (a b : Nat) (s : St) :
    scheduleRead (setMirrors a b s) = setMirrors a b (scheduleRead s) := by
  cases s
  dsimp [scheduleRead, setMirrors, St.srcLenBytes]
  split <;> rfl

lemma tickRead_setMirrors (t a b : Nat) (s : St) :
    tickRead t (setMirrors a b s) = setMirrors a b (tickRead t s) := by
  cases s; rfl

lemma maybeSrcError_setMirrors (cfg : Config) (a b : Nat) (s : St) :
    maybeSrcError cfg (setMirrors a b s) = setMirrors a b (maybeSrcError cfg s) := by
  cases s
  dsimp [maybeSrcError, setMirrors]
  split <;> rfl

lemma pushNullStep_setMirrors (a b : Nat) (s : St) :
    pushNullStep (setMirrors a b s) = setMirrors a b (pushNullStep s) := by
  dsimp only [pushNullStep]
  rw [setMirrors_log, smUpd_srcEnded, checkEnd_setMirrors]

lemma pushChunkStep_setMirrors (cfg : Config) (a b : Nat) (s : St) :
    pushChunkStep cfg (setMirrors a b s) = setMirrors a b (pushChunkStep cfg s) := by
  dsimp only [pushChunkStep]
  rw [smUpd_srcBuf, setMirrors_count, setMirrors_flowing, setMirrors_piped,
    setMirrors_srcBuf]
  split
  · rw [emitData_setMirrors, scheduleRead_setMirrors]
  · split
    · rw [scheduleRead_setMirrors]
    · rfl

lemma readComplete_setMirrors (cfg : Config) (t a b : Nat) (s : St) :
    readComplete cfg t (setMirrors a b s) = setMirrors a b (readComplete cfg t s) := by
  dsimp only [readComplete]
  rw [tickRead_setMirrors, maybeSrcError_setMirrors, setMirrors_count]
  split
  · rw [pushNullStep_setMirrors]
  · rw [pushChunkStep_setMirrors]

lemma ackInFlight_setMirrors (t a b : Nat) (s : St) :
    ackInFlight t (setMirrors a b s) = setMirrors a b (ackInFlight t s) := by
  cases s; rfl

lemma resumeFlow_setMirrors (cfg : Config) (a b : Nat) (s : St) :
    resumeFlow cfg (setMirrors a b s) = setMirrors a b (resumeFlow cfg s) := by
  dsimp only [resumeFlow]
  rw [smUpd_flowing, setMirrors_srcBuf, flowAux_setMirrors, checkEnd_setMirrors,
    scheduleRead_setMirrors]

lemma drainStep_setMirrors (cfg : Config) (a b : Nat) (s : St) :
    drainStep cfg (setMirrors a b s) = setMirrors a b (drainStep cfg s) := by
  dsimp only [drainStep]
  rw [setMirrors_needDrain, setMirrors_log]
  split
  · rw [smUpd_drain, setMirrors_piped]
    split
    · rw [resumeFlow_setMirrors]
    · rfl
  · rfl

lemma writeComplete_setMirrors (cfg : Config) (t a b : Nat) (s : St) :
    writeComplete cfg t (setMirrors a b s) = setMirrors a b (writeComplete cfg t s) := by
  dsimp only [writeComplete]
  rw [ackInFlight_setMirrors, setMirrors_sinkQueue]
  cases hq : (ackInFlight t s).sinkQueue with
  | nil =>
    dsimp only
    rw [drainStep_setMirrors, finishMaybe_setMirrors]
  | cons c rest =>
    dsimp only
    rw [smUpd_sinkQueue, doWriteStart_setMirrors]

lemma step_setMirrors (cfg : Config) (a b : Nat) (s : St) :
    step cfg (setMirrors a b s) = Option.map (setMirrors a b) (step cfg s) := by
  dsimp only [step]
  rw [setMirrors_pendingRead, setMirrors_pendingWrite]
  cases h1 : s.pendingRead <;> cases h2 : s.pendingWrite <;>
    simp [readComplete_setMirrors, writeComplete_setMirrors]
  split <;> simp [readComplete_setMirrors, writeComplete_setMirrors]

/-- C1: in every reachable state of all three example runs, the sink's
effective occupancy (queued chunks plus the in-flight one) never exceeds
its capacity of highWaterMark/chunkSize chunks, the source's buffer never
exceeds its capacity, and the sink's reported snapshot capacity is one
chunk smaller than highWaterMark/chunkSize, accounting for the in-flight
reservation. -/
theorem c1_buffer_capacity_invariant :
    ((trace backpressureCfg ++ trace errorsCfg ++ trace flowingCfg).all
      capacityInv) = true
    ∧ sinkDisplayCapacity = SINK_HIGH_WATER_MARK / CHUNK_BYTES - 1
    ∧ sinkDisplayCapacity = sinkCapacityChunks - 1 :=
  ⟨by decide, by decide, by decide⟩

/-- C2 counterexample: the push of lines 79-100 does not implement the
spec's enqueue contract.  On a buffer of three 25-byte chunks (75 bytes of
a 100-byte capacity) the spec's enqueue appends and returns true, while
push appends and returns false; on a full buffer of four chunks the spec's
enqueue rejects without appending, while push appends anyway. -/
theorem c2_push_is_not_spec_enqueue :
    enqueueSpec [1, 2, 3] 4 = ([1, 2, 3, 4], true)
    ∧ pushToBuffer [1, 2, 3] 4 = ([1, 2, 3, 4], false)
    ∧ enqueueSpec [1, 2, 3, 4] 5 = ([1, 2, 3, 4], false)
    ∧ pushToBuffer [1, 2, 3, 4] 5 = ([1, 2, 3, 4, 5], false) := by
  refine ⟨by decide, by decide, by decide, by decide⟩

/-- C2 amended: Source.push always appends the chunk, and returns false
exactly when the buffered length after appending reaches or exceeds the
high-water mark (currentLength + chunk.size at least capacity), true
otherwise. -/
theorem c2_push_always_appends_threshold_at_hwm :
    ∀ (buf : List Nat) (c : Nat), pushToBuffer buf c = enqueueAmended buf c := by
  intro buf c
  simp only [pushToBuffer, enqueueAmended, List.length_append, List.length_cons,
    List.length_nil, CHUNK_BYTES, SOURCE_HIGH_WATER_MARK]
  congr 1
  rw [decide_eq_decide]
  omega

/-- C3 counterexample: in the errors run the Source's error (read 3) does
not unlink the pipe - the pipe is still linked in a later reachable state
with the source already errored - and the Sink never reaches FINISHED
(the finish event is absent from the whole run). -/
theorem c3_source_error_does_not_unlink :
    ((trace errorsCfg).any (fun s => s.srcErrored && s.piped)) = true
    ∧ Ev.sinkFinish ∉ logOf errorsCfg :=
  ⟨by decide, by decide⟩

/-- C3 amended: the Source's error on chunk 3 is inert: the pipe stays
linked and forwarding continues (chunk 8 is delivered after the error);
the link is severed only when the Sink itself errors (in every state, an
unlinked pipe implies the sink has errored); the Sink is not torn down but
keeps processing, yet never reaches FINISHED because end is never
signalled, and the Source never reaches ENDED. -/
theorem c3_source_error_is_inert :
    Ev.srcError ∈ logOf errorsCfg
    ∧ Ev.delivered 8 ∈ logOf errorsCfg
    ∧ (logOf errorsCfg).indexOf Ev.srcError
        < (logOf errorsCfg).indexOf (Ev.delivered 8)
    ∧ ((trace errorsCfg).all fun s => s.piped || s.sinkErrored) = true
    ∧ Ev.sinkFinish ∉ logOf errorsCfg
    ∧ Ev.sourceEnd ∉ logOf errorsCfg :=
  ⟨by decide, by decide, by decide, by decide, by decide, by decide⟩

/-- C4 counterexample: on the Sink's error the unpipe event fires on the
Sink, not on the Source: the errors run contains a sink-side unpipe event
and no source-side one (the Source's own unpipe listener never fires, as
nothing ever pipes into the Source). -/
theorem c4_unpipe_fires_on_sink_not_on_source :
    Ev.sinkUnpiped ∈ logOf errorsCfg ∧ Ev.sourceUnpiped ∉ logOf errorsCfg :=
  ⟨by decide, by decide⟩

/-- C4 amended: when the Sink errors on its 7th write the pipe unlinks in
the same step (no reachable state has the sink errored while still piped);
the unpipe event fires on the Sink, naming the Source, while the Source's
own unpipe listener never fires; no further read is requested after the
error (the last read, number 11, started before it) and no chunk is
generated after it, so nothing is produced to discard; the chunks already
generated into the Source's buffer (9 and 10) remain buffered there and
are never forwarded. -/
theorem c4_sink_error_unlink :
    ((trace errorsCfg).all fun s => !(s.sinkErrored && s.piped)) = true
    ∧ Ev.sinkUnpiped ∈ logOf errorsCfg
    ∧ Ev.sourceUnpiped ∉ logOf errorsCfg
    ∧ Ev.readStart 12 ∉ logOf errorsCfg
    ∧ (logOf errorsCfg).indexOf (Ev.readStart 11)
        < (logOf errorsCfg).indexOf Ev.sinkError
    ∧ (finalState errorsCfg).srcBuf = [9, 10] :=
  ⟨by decide, by decide, by decide, by decide, by decide, by decide⟩

/-- C5: in each normally completing run the end event fires strictly after
the last buffered chunk has been handed to the Sink, and strictly after
the end-of-data was generated (push of null), never at generation time;
moreover in every reachable state of those runs the end event has fired
only with an empty source buffer.  In the errors run the buffer is never
drained and end never fires. -/
theorem c5_end_only_after_buffer_drained :
    Ev.sourceEnd ∈ logOf backpressureCfg
    ∧ Ev.delivered 10 ∈ logOf backpressureCfg
    ∧ (logOf backpressureCfg).indexOf (Ev.delivered 10)
        < (logOf backpressureCfg).indexOf Ev.sourceEnd
    ∧ (logOf backpressureCfg).indexOf Ev.pushedNull
        < (logOf backpressureCfg).indexOf Ev.sourceEnd
    ∧ Ev.sourceEnd ∈ logOf flowingCfg
    ∧ (logOf flowingCfg).indexOf (Ev.delivered 20)
        < (logOf flowingCfg).indexOf Ev.sourceEnd
    ∧ ((trace backpressureCfg ++ trace flowingCfg).all
        fun s => !s.endEmitted || s.srcBuf.isEmpty) = true
    ∧ Ev.sourceEnd ∉ logOf errorsCfg :=
  ⟨by decide, by decide, by decide, by decide, by decide, by decide,
   by decide, by decide⟩

/-- C6 counterexample: in the errors run the production in flight at the
moment of the Source's error is not discarded: its chunk (number 3) is
delivered to the Sink after the source error event. -/
theorem c6_inflight_result_not_discarded :
    Ev.srcError ∈ logOf errorsCfg
    ∧ Ev.delivered 3 ∈ logOf errorsCfg
    ∧ (logOf errorsCfg).indexOf Ev.srcError
        < (logOf errorsCfg).indexOf (Ev.delivered 3) :=
  ⟨by decide, by decide, by decide⟩

/-- C6 amended: an error on the Source discards nothing - the in-flight
production completes and its chunk is forwarded normally.  Only the Sink's
error severs the link, and even then the Sink's in-flight write completes
and the queued chunk 8 is still processed after the error; from the unpipe
onward no chunk is handed to the Sink anymore, so the chunks remaining in
the Source's buffer (9 and 10) are stranded and never forwarded. -/
theorem c6_error_discard_behavior :
    Ev.writeStart 8 8 ∈ logOf errorsCfg
    ∧ (logOf errorsCfg).indexOf Ev.sinkError
        < (logOf errorsCfg).indexOf (Ev.writeStart 8 8)
    ∧ deliveredSeq ((logOf errorsCfg).drop
        ((logOf errorsCfg).indexOf Ev.sinkUnpiped)) = []
    ∧ (finalState errorsCfg).srcBuf = [9, 10]
    ∧ Ev.delivered 9 ∉ logOf errorsCfg
    ∧ Ev.delivered 10 ∉ logOf errorsCfg :=
  ⟨by decide, by decide, by decide, by decide, by decide, by decide⟩

/-- C7 counterexample: a sink capacity smaller than the total bytes
produced does not force a suspension.  With 5 chunks (125 bytes against
the 100-byte sink high-water mark) the run completes - end and finish both
fire - yet push never returns false on a data chunk, so the Source never
suspends. -/
theorem c7_undersized_sink_without_suspension :
    SINK_HIGH_WATER_MARK < 5 * CHUNK_BYTES
    ∧ Ev.sourceEnd ∈ logOf shortCfg
    ∧ Ev.sinkFinish ∈ logOf shortCfg
    ∧ Ev.pushFalsePaused ∉ logOf shortCfg :=
  ⟨by decide, by decide, by decide, by decide⟩

/-- C7 amended: in the shipped configuration (10 chunks of 25 bytes, so
250 bytes against the 100-byte capacities, production ten times faster
than consumption) the Source does suspend - push returns false and reading
pauses - at least once strictly before the end event; the property does
not hold for every configuration with sink capacity below the total bytes
produced. -/
theorem c7_configured_run_suspends_before_end :
    SINK_HIGH_WATER_MARK < READ_COUNT * CHUNK_BYTES
    ∧ Ev.pushFalsePaused ∈ logOf backpressureCfg
    ∧ Ev.sourceEnd ∈ logOf backpressureCfg
    ∧ (logOf backpressureCfg).indexOf Ev.pushFalsePaused
        < (logOf backpressureCfg).indexOf Ev.sourceEnd :=
  ⟨by decide, by decide, by decide, by decide⟩

/-- C8: the Sink observes chunks in exactly the order the Source generated
them: in the backpressure and flowing runs every generated chunk is both
handed over and written in generation order with no reordering,
duplication or loss; in the errors run the chunks observed before the link
is severed are exactly the prefix 1..8, in order, both at handoff and at
write time. -/
theorem c8_fifo_delivery :
    deliveredSeq (logOf backpressureCfg) = [1, 2, 3, 4, 5, 6, 7, 8, 9, 10]
    ∧ writeSeq (logOf backpressureCfg) = [1, 2, 3, 4, 5, 6, 7, 8, 9, 10]
    ∧ deliveredSeq (logOf errorsCfg) = [1, 2, 3, 4, 5, 6, 7, 8]
    ∧ writeSeq (logOf errorsCfg) = [1, 2, 3, 4, 5, 6, 7, 8]
    ∧ deliveredSeq (logOf flowingCfg) =
        [1, 2, 3, 4, 5, 6, 7, 8, 9, 10, 11, 12, 13, 14, 15, 16, 17, 18, 19, 20] :=
  ⟨by decide, by decide, by decide, by decide, by decide⟩

/-- C9: the observer is read-only with respect to stream state: a poll
tick changes nothing but the displayed bufferLength mirrors (the stream
projection of a polled state equals that of the unpolled state), and the
scheduler step never reads those mirrors (stepping a polled state yields
the same stream state as stepping the unpolled one, for every
configuration and every state), so no observer invocation can change a
buffer or a flow-control decision of Source, Sink, or Pipe. -/
theorem c9_observer_is_readonly :
    (∀ s : St, St.core (monitorPoll s) = St.core s)
    ∧ (∀ (cfg : Config) (s : St),
        Option.map St.core (step cfg (monitorPoll s))
          = Option.map St.core (step cfg s)) := by
  have hstep : ∀ (cfg : Config) (a b : Nat) (s : St),
      Option.map St.core (step cfg (setMirrors a b s))
        = Option.map St.core (step cfg s) := by
    intro cfg a b s
    rw [step_setMirrors]
    cases step cfg s <;> rfl
  constructor
  · intro s
    unfold monitorPoll
    split
    · rfl
    · split <;> rfl
  · intro cfg s
    unfold monitorPoll
    split
    · exact hstep cfg s.srcMirror (getBufferLengthSink s) s
    · split
      · exact hstep cfg (getBufferLengthSrc s) s.sinkMirror s
      · rfl

/-- C10: in both example programs the Source's snapshot capacity field is
computed from the sink's high-water mark (4 chunks), and it coincides with
the true source capacity only because both high-water marks are configured
to the same 100 bytes. -/
theorem c10_source_display_capacity_from_sink_hwm :
    sourceBufferCapacityBackpressure = SINK_HIGH_WATER_MARK / CHUNK_BYTES
    ∧ sourceBufferCapacityErrors = SINK_HIGH_WATER_MARK / CHUNK_BYTES
    ∧ SINK_HIGH_WATER_MARK / CHUNK_BYTES = 4
    ∧ sourceBufferCapacityBackpressure = sourceCapacityChunks
    ∧ SOURCE_HIGH_WATER_MARK = SINK_HIGH_WATER_MARK :=
  ⟨by decide, by decide, by decide, by decide, by decide⟩

end StreamExamples
